import Mathlib

/-!
Shallow embedding of the pa-notify-alert air-quality notification program
(`pa_notify_alert.py`, `conversions.py`) and proofs about its decision logic.

Numbers are modelled with `ℚ` (the Python code computes with floats over
decimal literals; the algorithmic structure is rational).  Python's `round`
builtin rounds half to even; `int(x)` truncates toward zero.  Times of day
are modelled as seconds since midnight (`ℕ` below 86400): the source compares
`'%H:%M:%S'`-formatted strings lexicographically, which for this fixed-width
format agrees with comparison of seconds-of-day.  Instants (UTC) are modelled
as epoch seconds in `ℤ`.  Fallible computations return `Option`/`Except`.
-/

/-- Python `int(x)` applied to a real value: truncation toward zero. -/
def pyTrunc (q : ℚ) : ℤ :=
  if 0 ≤ q then ⌊q⌋ else ⌈q⌉

/-- Python `round(x)` for a real value: round half to even (banker's rounding). -/
def pyRoundHalfEven (q : ℚ) : ℤ :=
  let f := ⌊q⌋
  let r := q - (f : ℚ)
  if r < 1/2 then f
  else if 1/2 < r then f + 1
  else if f % 2 = 0 then f else f + 1

/-- Python `round(x, 1)`. -/
def round1 (q : ℚ) : ℚ :=
  (pyRoundHalfEven (q * 10) : ℚ) / 10

/-- Python `round(x, 3)`. -/
def round3 (q : ℚ) : ℚ :=
  (pyRoundHalfEven (q * 1000) : ℚ) / 1000

/-! ## conversions.py -/

namespace AQI

/-- The PM2.5 AQI breakpoint table `pm25_aqi` of `AQI.calculate`
(rows `[Ilow, Ihigh, Clow, Chigh]`, with the last row duplicated as in the
source). -/
def pm25_aqi : List (ℚ × ℚ × ℚ × ℚ) :=
  [ (0, 50, 0, 12),
    (51, 100, 12.1, 35.4),
    (101, 150, 35.5, 55.4),
    (151, 200, 55.5, 150.4),
    (201, 300, 150.5, 250.4),
    (301, 500, 250.5, 500.4),
    (301, 500, 250.5, 500.4) ]

/-- The `for values in pm25_aqi` lookup loop of `AQI.calculate`: the first row
with `Clow <= PM2_5 <= Chigh` yields
`int(round((Ihigh - Ilow) / (Chigh - Clow) * (PM2_5 - Clow) + Ilow))`;
falling off the end of the loop returns Python `None`, modelled as `none`. -/
def lookup : List (ℚ × ℚ × ℚ × ℚ) → ℚ → Option ℤ
  | [], _ => none
  | (Ilow, Ihigh, Clow, Chigh) :: rest, v =>
    if Clow ≤ v ∧ v ≤ Chigh then
      some (pyRoundHalfEven ((Ihigh - Ilow) / (Chigh - Clow) * (v - Clow) + Ilow))
    else lookup rest v

/-- `AQI.calculate(PM, *args)`: averages `PM` with the extra arguments,
truncates to 0.1 resolution via `max(int(PM2_5 * 10) / 10.0, 0)`, then maps
through the breakpoint table. -/
def calculate (PM : ℚ) (args : List ℚ) : Option ℤ :=
  let total := PM + args.sum
  let count : ℚ := 1 + args.length
  let PM2_5 := total / count
  let PM2_5 := max ((pyTrunc (PM2_5 * 10) : ℚ) / 10) 0
  lookup pm25_aqi PM2_5

end AQI

/-- A Python value as far as `EPA.calculate` inspects it: a number or a
string (`isinstance(x, str)`). -/
inductive PyVal where
  | num (q : ℚ)
  | str
  deriving DecidableEq

/-- `isinstance(x, str)`. -/
def PyVal.isStr : PyVal → Bool
  | .num _ => false
  | .str => true

/-- The numeric value of a `PyVal` (only consulted on numbers). -/
def PyVal.val : PyVal → ℚ
  | .num q => q
  | .str => 0

namespace EPA

/-- One iteration of the `for arg in args` loop of `EPA.calculate` over the
accumulator `(total, count)`.  A negative numeric argument is reassigned to
`0` but neither added to `total` nor counted; a string argument hits the
`arg < 0` comparison first, which raises `TypeError` in Python 3 (the loop is
outside the function's `try` block), modelled as `Except.error`. -/
def argStep (acc : ℚ × ℕ) (arg : PyVal) : Except Unit (ℚ × ℕ) :=
  match arg with
  | .str => .error ()
  | .num q => if q < 0 then .ok acc else .ok (acc.1 + q, acc.2 + 1)

/-- The two-branch EPA correction formula applied after averaging:
`0.52*PM - 0.086*RH + 5.75` when the average is `<= 343`, else
`0.46*PM + 3.93e-4*PM^2 + 2.97`, rounded to 3 decimals. -/
def body (RH PM2_5 : ℚ) : ℚ :=
  if PM2_5 ≤ 343 then round3 (52/100 * PM2_5 - 86/1000 * RH + 575/100)
  else round3 (46/100 * PM2_5 + 393/1000000 * PM2_5 ^ 2 + 297/100)

/-- `EPA.calculate(RH, PM, *args)`: if `RH` or `PM` is a string both are
zeroed; negative `PM` and `RH` are clamped to zero; the extra arguments are
folded by `argStep`; the average `total / count` is fed to the two-branch
formula. -/
def calculate (RH PM : PyVal) (args : List PyVal) : Except Unit ℚ := do
  let rh : ℚ := if RH.isStr || PM.isStr then 0 else RH.val
  let pm : ℚ := if RH.isStr || PM.isStr then 0 else PM.val
  let pm := if pm < 0 then 0 else pm
  let rh := if rh < 0 then 0 else rh
  let tc ← args.foldlM argStep (pm, 1)
  let PM2_5 := tc.1 / (tc.2 : ℚ)
  pure (body rh PM2_5)

end EPA

/-! ## pa_notify_alert.py: time-of-day boundaries

The source keeps boundaries as `'%H:%M:%S'` strings and compares them
lexicographically, which coincides with numeric comparison of seconds of
day; boundaries are therefore `ℕ` values `< 86400` here. -/

/-- The three-line `strptime` / `-= timedelta(hours=1)` / `strftime('%H:%M:%S')`
block that the criteria functions apply to a configured boundary: one hour
earlier, wrapping modulo 24 hours (`strftime` keeps only the time of day). -/
def shiftBackOneHour (t : ℕ) : ℕ := (t + 86400 - 3600) % 86400

/-- The boundary value actually compared against the current UTC time of day:
the configured value when `is_pdt()` is true, else `shiftBackOneHour` of it
(the `if not is_pdt():` adjustment blocks of `polling_criteria_met` and
`notification_criteria_met`). -/
def adjustedBoundary (isPdt : Bool) (cfg : ℕ) : ℕ :=
  if isPdt then cfg else shiftBackOneHour cfg

/-- Modelled from the spec: the boundary adjustment as §4.5 words it — "when
daylight saving is active, every boundary is shifted earlier by one hour
before comparison" (so unshifted when daylight saving is inactive).  Kept
separate from `adjustedBoundary`, which embeds the source. -/
def specAdjustedBoundary (dstActive : Bool) (cfg : ℕ) : ℕ :=
  if dstActive then shiftBackOneHour cfg else cfg

/-- The value `polling_criteria_met` returns: a bare `False` from the weekday
early return, otherwise the pair
`(polling_et >= POLLING_INTERVAL, START <= now <= END)`.  In `main`, this
value is compared with Python `==` against the tuples `(True, True)` and
`(True, False)`; the bare `False` equals neither. -/
inductive PollResult where
  | scalar (b : Bool)
  | pair (elapsed inWindow : Bool)
  deriving DecidableEq

/-- `polling_criteria_met(polling_et)`.  Environment reads
(`datetime.today().weekday()`, `is_pdt()`, `datetime.utcnow()`) and the
`constants` module values are passed as parameters. -/
def polling_criteria_met (weekday maxDayOfWeek : ℕ) (pollingEt pollingInterval : ℚ)
    (isPdt : Bool) (startCfg endCfg nowTod : ℕ) : PollResult :=
  if weekday > maxDayOfWeek then .scalar false
  else
    .pair (decide (pollingEt ≥ pollingInterval))
      (decide (nowTod ≥ adjustedBoundary isPdt startCfg ∧
               nowTod ≤ adjustedBoundary isPdt endCfg))

/-- `notification_criteria_met(local_pm25_aqi, regional_aqi_mean,
num_data_points, max_data_points)`: weekday early return, PST adjustment of
the four alert boundaries, then
`(pre_open_notification_criteria or open_notification_criteria) and
num_data_points >= max_data_points`.  Note the local index is compared with
`OPEN_AQI_ALERT_THRESHOLD` in both windows. -/
def notification_criteria_met (weekday maxDayOfWeek : ℕ) (isPdt : Bool)
    (preOpenStartCfg preOpenEndCfg openStartCfg openEndCfg nowTod : ℕ)
    (localPm25Aqi regionalAqiMean openThreshold preOpenThreshold : ℚ)
    (numDataPoints maxPts : ℕ) : Bool :=
  if weekday > maxDayOfWeek then false
  else
    let preOpenCriteria :=
      nowTod ≥ adjustedBoundary isPdt preOpenStartCfg ∧
      nowTod ≤ adjustedBoundary isPdt preOpenEndCfg ∧
      (localPm25Aqi ≥ openThreshold ∨ regionalAqiMean ≥ preOpenThreshold)
    let openCriteria :=
      nowTod ≥ adjustedBoundary isPdt openStartCfg ∧
      nowTod ≤ adjustedBoundary isPdt openEndCfg ∧
      (localPm25Aqi ≥ openThreshold ∨ regionalAqiMean ≥ openThreshold)
    decide ((preOpenCriteria ∨ openCriteria) ∧ numDataPoints ≥ maxPts)

/-- `(strptime(t) - timedelta(seconds=30)).strftime('%H:%M:%S')`: thirty
seconds earlier, wrapping modulo 24 hours. -/
def minusThirtySeconds (t : ℕ) : ℕ := (t + 86400 - 30) % 86400

/-- `daily_text_notification_criteria_met(daily_text_notification,
num_data_points)`.  `dailyTextNotification` and `utcNow` are UTC epoch
seconds; `nowTod` is the UTC time of day.  When `is_pdt()` is false the last
timestamp is moved one hour later; note the ` >= 16` sample condition is
applied only inside the `weekday <= MAX_DAY_OF_WEEK` branch. -/
def daily_text_notification_criteria_met (featureFlag isPdt : Bool)
    (dailyTextNotification utcNow : ℤ) (nowTod preOpenStartCfg : ℕ)
    (weekday maxDayOfWeek numDataPoints : ℕ) : Bool :=
  if featureFlag then
    let lastAdjusted :=
      if isPdt then dailyTextNotification else dailyTextNotification + 3600
    let textCriteria :=
      decide (utcNow - lastAdjusted ≥ 14 * 3600) &&
      decide (nowTod ≥ minusThirtySeconds preOpenStartCfg)
    if weekday ≤ maxDayOfWeek then textCriteria && decide (numDataPoints ≥ 16)
    else textCriteria
  else false

/-- `daily_email_notification_criteria_met(daily_email_notification,
num_data_points)`: identical structure to the text variant. -/
def daily_email_notification_criteria_met (featureFlag isPdt : Bool)
    (dailyEmailNotification utcNow : ℤ) (nowTod preOpenStartCfg : ℕ)
    (weekday maxDayOfWeek numDataPoints : ℕ) : Bool :=
  if featureFlag then
    let lastAdjusted :=
      if isPdt then dailyEmailNotification else dailyEmailNotification + 3600
    let emailCriteria :=
      decide (utcNow - lastAdjusted ≥ 14 * 3600) &&
      decide (nowTod ≥ minusThirtySeconds preOpenStartCfg)
    if weekday ≤ maxDayOfWeek then emailCriteria && decide (numDataPoints ≥ 16)
    else emailCriteria
  else false

/-! ## Cooldown store and per-channel notification step -/

/-- One channel of `read_timestamp`: a readable file yields its stored UTC
timestamp; a missing file (`FileNotFoundError`) is recreated with
`datetime.now() - timedelta(hours=24)` and that value is returned.  Instants
are UTC epoch seconds. -/
def read_timestamp_channel (stored : Option ℤ) (now : ℤ) : ℤ :=
  match stored with
  | some t => t
  | none => now - 24 * 3600

/-- The cooldown comparison of `main`:
`text_notification_et >= constants.NOTIFICATION_INTERVAL` (and likewise for
email), with the elapsed time from `elapsed_time` being `now - last`. -/
def cooldownPermits (notificationInterval now last : ℤ) : Bool :=
  decide (now - last ≥ notificationInterval)

/-- One channel's send step in `main`'s poll cycle: the notification fires
when the gate criteria hold and the channel's cooldown has elapsed.
`text_notify` / `email_notify` call `write_timestamp` only after every
message of the batch has been sent; on send failure the retry decorator
exhausts its attempts and exits the process, so the stored timestamp is
untouched.  Returns (stored timestamp after the step, whether a
notification was sent). -/
def notifyChannelStep (notificationInterval now last : ℤ)
    (criteriaMet sendCompleted : Bool) : ℤ × Bool :=
  if criteriaMet && cooldownPermits notificationInterval now last then
    if sendCompleted then (now, true) else (last, false)
  else (last, false)

/-! ## Sliding window buffer -/

/-- Python's `lst[-cap:]` for `cap >= 1`: the last `min cap (length lst)`
elements.  (`max_data_points` below is always `>= 1`, so the `lst[-0:]`
corner of the slice syntax never arises.) -/
def takeLast (cap : ℕ) (l : List ℚ) : List ℚ := l.drop (l.length - cap)

/-- The buffer update of `main` after a successful fetch:
`local_pm25_aqi_list.append(local_pm25_aqi)` followed by
`local_pm25_aqi_list = local_pm25_aqi_list[-max_data_points:]`. -/
def appendReading (cap : ℕ) (buf : List ℚ) (v : ℚ) : List ℚ :=
  takeLast cap (buf ++ [v])

/-- `max_data_points = ceil(READINGS_STORAGE_DURATION / (POLLING_INTERVAL/60)) + 1`
from `initialize` (storage duration in minutes, polling interval in
seconds). -/
def max_data_points (readingsStorageDuration pollingIntervalSec : ℕ) : ℕ :=
  (⌈(readingsStorageDuration : ℚ) / ((pollingIntervalSec : ℚ) / 60)⌉).toNat + 1

/-- The effect of one `main` loop iteration on `local_pm25_aqi_list`:
appended-and-trimmed when `polling_criteria_met(...) == (True, True)` and the
fetch succeeded (`fetched = some v`; `none` is the `local_pm25_aqi == 'ERROR'`
case, which leaves the list alone), cleared when
`polling_criteria_met(...) == (True, False)`, untouched otherwise — in
particular untouched when `polling_criteria_met` returned the bare `False`. -/
def mainBufferStep (pr : PollResult) (buf : List ℚ) (cap : ℕ)
    (fetched : Option ℚ) : List ℚ :=
  if pr = .pair true true then
    match fetched with
    | some v => appendReading cap buf v
    | none => buf
  else if pr = .pair true false then []
  else buf

/-! ## Rate of change -/

/-- The least-squares slope `numpy.polyfit(x, y, 1)` computes for
`x = arange(len(pts)) * m` (normal-equations closed form
`(n·Σxy − Σx·Σy) / (n·Σx² − (Σx)²)`). -/
def lsSlope (m : ℕ) (pts : List ℚ) : ℚ :=
  let n : ℚ := pts.length
  let xs : List ℚ := (List.range pts.length).map (fun i => ((i * m : ℕ) : ℚ))
  let sx := xs.sum
  let sy := pts.sum
  let sxy := ((xs.zip pts).map (fun p => p.1 * p.2)).sum
  let sxx := (xs.map (fun x => x * x)).sum
  (n * sxy - sx * sy) / (n * sxx - sx * sx)

/-- `aqi_rate_of_change(data_points)`: slope `0` below two points, otherwise
the least-squares slope over `x = index * int(POLLING_INTERVAL / 60)`;
`round(slope * 60, 1)` either way.  `m` is `int(POLLING_INTERVAL / 60)`. -/
def aqi_rate_of_change (m : ℕ) (pts : List ℚ) : ℚ :=
  if pts.length < 2 then round1 ((0 : ℚ) * 60)
  else round1 (lsSlope m pts * 60)

/-! ## Regional mean -/

/-- A regional sensor row after `fillna` and column selection:
(humidity, pm2.5_cf_1_a, pm2.5_cf_1_b). -/
def RegionalRow : Type := ℚ × ℚ × ℚ

/-- The four `drop` conditions of `clean_data`, as the predicate a surviving
row satisfies. -/
def cleanRowOk (r : RegionalRow) : Bool :=
  decide (¬ r.2.1 > 2000) && decide (¬ r.2.2 > 2000) &&
  decide (¬ |r.2.1 - r.2.2| ≥ 5) &&
  decide (¬ |r.2.1 - r.2.2| / ((r.2.1 + r.2.2 + 1/1000000) / 2) ≥ 7/10)

/-- `clean_data(df)`: successive `df.drop` calls keep exactly the rows
matching none of the four conditions. -/
def clean_data (rows : List RegionalRow) : List RegionalRow :=
  rows.filter cleanRowOk

/-- One row's `Ipm25` value:
`AQI.calculate(EPA.calculate(humidity, pm2.5_cf_1_a, pm2.5_cf_1_b))`. -/
def rowIpm25 (r : RegionalRow) : Option ℤ :=
  match EPA.calculate (.num r.1) (.num r.2.1) [.num r.2.2] with
  | .ok v => AQI.calculate v []
  | .error _ => none

/-- How the `session.get` call in `get_regional_pa_data` went, as far as the
function's branches distinguish it. -/
inductive FetchOutcome where
  | exception
  | notOk
  | ok (rows : List RegionalRow)

/-- What a call to `get_regional_pa_data` does: return the empty DataFrame,
return a number, raise `NameError` (reading the unassigned `mean_ipm25`), or
raise some other exception while computing the mean. -/
inductive RegionalResult where
  | dataFrame
  | value (q : ℚ)
  | nameError
  | raised
  deriving DecidableEq

/-- `get_regional_pa_data(bbox, local_aqi)`: a `RequestException` returns the
empty DataFrame `df`; a non-ok response assigns only `df` and then the final
`return round(mean_ipm25, 1)` raises `NameError`; an ok response cleans the
rows, computes the per-row `Ipm25` mean (falling back to `local_aqi` when the
cleaned frame is empty) and returns it rounded to 1 decimal.  A `None` from
`AQI.calculate` in the `Ipm25` column would make the pandas `mean` raise,
modelled as `raised`. -/
def get_regional_pa_data (outcome : FetchOutcome) (localAqi : ℚ) : RegionalResult :=
  match outcome with
  | .exception => .dataFrame
  | .notOk => .nameError
  | .ok rows =>
    let df := clean_data rows
    if df.isEmpty then .value (round1 localAqi)
    else
      match df.mapM rowIpm25 with
      | some vs => .value (round1 (((vs.map (Int.cast : ℤ → ℚ)).sum) / (vs.length : ℚ)))
      | none => .raised

/-! ## Theorems -/

/-- Claim C6: the AQI conversion truncates the averaged concentration to
0.1 µg/m³ resolution, floors it at 0, maps it through the piecewise-linear
PM2.5 breakpoint table with `round(Ilow + (Ihigh−Ilow)/(Chigh−Clow) ×
(value−Clow))`, and is exact at the breakpoint boundaries:
`AQI(12.0) = 50`, `AQI(12.1) = 51`, `AQI(0) = 0`, `AQI(500.4) = 500`. -/
theorem aqi_breakpoint_exactness :
    (∀ pm : ℚ, AQI.calculate pm [] =
      AQI.lookup AQI.pm25_aqi (max ((pyTrunc (pm * 10) : ℚ) / 10) 0)) ∧
    AQI.calculate 12 [] = some 50 ∧
    AQI.calculate 12.1 [] = some 51 ∧
    AQI.calculate 0 [] = some 0 ∧
    AQI.calculate 500.4 [] = some 500 := by
  refine ⟨fun pm => by simp [AQI.calculate], ?_, ?_, ?_, ?_⟩ <;>
    norm_num [AQI.calculate, AQI.lookup, AQI.pm25_aqi, pyTrunc, pyRoundHalfEven]

/-- Claim C1: after a fetch, a threshold notification is permitted if and
only if the weekday gate is open, the current time lies inside the
(DST-adjusted) pre-open window with (local AQI ≥ open-threshold or regional
mean ≥ pre-open-threshold) or inside the open window with (local AQI ≥
open-threshold or regional mean ≥ open-threshold), and the window buffer has
reached its full configured capacity. -/
theorem notification_gate_iff (weekday maxDayOfWeek : ℕ) (isPdt : Bool)
    (preS preE openS openE nowTod : ℕ)
    (localAqi regionalMean openThr preThr : ℚ) (numPts maxPts : ℕ) :
    notification_criteria_met weekday maxDayOfWeek isPdt preS preE openS openE
      nowTod localAqi regionalMean openThr preThr numPts maxPts = true ↔
    (weekday ≤ maxDayOfWeek ∧
      ((adjustedBoundary isPdt preS ≤ nowTod ∧ nowTod ≤ adjustedBoundary isPdt preE ∧
        (openThr ≤ localAqi ∨ preThr ≤ regionalMean)) ∨
       (adjustedBoundary isPdt openS ≤ nowTod ∧ nowTod ≤ adjustedBoundary isPdt openE ∧
        (openThr ≤ localAqi ∨ openThr ≤ regionalMean))) ∧
      maxPts ≤ numPts) := by
  by_cases h : weekday > maxDayOfWeek
  · simp only [notification_criteria_met, if_pos h]
    constructor
    · intro hfalse; exact absurd hfalse (by simp)
    · intro hrhs; omega
  · simp only [notification_criteria_met, if_neg h, decide_eq_true_eq, ge_iff_le]
    have h2 : weekday ≤ maxDayOfWeek := by omega
    simp only [h2, true_and]

/-- Claim C2 counterexample: with daylight saving active (`is_pdt()` true)
the code compares against the configured boundary unshifted, not shifted one
hour earlier as the claim states: at 12:30:00 UTC with the polling window
configured as 13:00:00–13:30:00, the claim's shifted window 12:00:00–12:30:00
contains the instant, yet `polling_criteria_met` reports it outside. -/
theorem dst_shift_counterexample :
    adjustedBoundary true 46800 = 46800 ∧
    specAdjustedBoundary true 46800 = 43200 ∧
    (46800 : ℕ) ≠ 43200 ∧
    polling_criteria_met 0 4 600 300 true 46800 48600 45000 =
      PollResult.pair true false ∧
    specAdjustedBoundary true 46800 ≤ 45000 ∧
    45000 ≤ specAdjustedBoundary true 48600 := by
  refine ⟨rfl, by norm_num [specAdjustedBoundary, shiftBackOneHour], by norm_num, ?_,
    by norm_num [specAdjustedBoundary, shiftBackOneHour],
    by norm_num [specAdjustedBoundary, shiftBackOneHour]⟩
  simp only [polling_criteria_met, adjustedBoundary]
  norm_num

/-- Claim C2 amended: boundaries are used unshifted while daylight saving is
active and shifted one hour earlier (modulo 24 hours) while it is not; inside
the weekday gate, `polling_criteria_met` compares the current UTC time of day
against exactly these adjusted boundaries. -/
theorem dst_shift_amended :
    (∀ cfg : ℕ, adjustedBoundary true cfg = cfg) ∧
    (∀ cfg : ℕ, adjustedBoundary false cfg = shiftBackOneHour cfg) ∧
    (∀ cfg : ℕ, 3600 ≤ cfg → cfg < 86400 → shiftBackOneHour cfg = cfg - 3600) ∧
    (∀ (weekday maxDayOfWeek : ℕ) (et iv : ℚ) (isPdt : Bool) (s e nowTod : ℕ),
      weekday ≤ maxDayOfWeek →
      polling_criteria_met weekday maxDayOfWeek et iv isPdt s e nowTod =
        PollResult.pair (decide (iv ≤ et))
          (decide (adjustedBoundary isPdt s ≤ nowTod ∧
                   nowTod ≤ adjustedBoundary isPdt e))) := by
  refine ⟨fun cfg => rfl, fun cfg => rfl, fun cfg h1 h2 => ?_, ?_⟩
  · simp only [shiftBackOneHour]
    omega
  · intro weekday maxDayOfWeek et iv isPdt s e nowTod hw
    simp only [polling_criteria_met, if_neg (by omega : ¬ weekday > maxDayOfWeek),
      ge_iff_le]

theorem dst_shift_amended_witness :
    (3600 ≤ 46800 ∧ 46800 < 86400) ∧ shiftBackOneHour 46800 = 46800 - 3600 :=
  ⟨⟨by norm_num, by norm_num⟩,
    dst_shift_amended.2.2.1 46800 (by norm_num) (by norm_num)⟩

/-- Claim C3 counterexample: with the feature flag on, 15 hours elapsed and
the time-of-day floor passed, but the weekday (Sunday, index 6) beyond the
configured maximum (4) and an empty buffer, both daily criteria functions
return `True` — the weekday gate and 16-sample conditions do not force
`False`. -/
theorem daily_criteria_counterexample :
    daily_text_notification_criteria_met true true 0 54000 50000 46800 6 4 0 = true ∧
    daily_email_notification_criteria_met true true 0 54000 50000 46800 6 4 0 = true ∧
    ¬ (6 ≤ 4) ∧ ¬ (16 ≤ 0) := by
  refine ⟨?_, ?_, by norm_num, by norm_num⟩ <;>
    norm_num [daily_text_notification_criteria_met,
      daily_email_notification_criteria_met, minusThirtySeconds]

/-- Claim C3 amended: each daily criteria function returns `True` iff the
feature flag is enabled, at least 14 hours have elapsed since the
(PST-adjusted) last daily send, the current UTC time-of-day is at least the
pre-open start minus 30 seconds, and — only when today's weekday is within
the configured maximum — the buffer holds at least 16 samples; when the
weekday exceeds the maximum, the weekday and sample-count conditions are
skipped rather than forcing `False`. -/
theorem daily_criteria_amended (flag isPdt : Bool) (last utcNow : ℤ)
    (nowTod preS weekday maxD num : ℕ) :
    (daily_text_notification_criteria_met flag isPdt last utcNow nowTod preS
        weekday maxD num = true ↔
      (flag = true ∧ 14 * 3600 ≤ utcNow - (if isPdt then last else last + 3600) ∧
        minusThirtySeconds preS ≤ nowTod ∧ (weekday ≤ maxD → 16 ≤ num))) ∧
    daily_email_notification_criteria_met flag isPdt last utcNow nowTod preS
        weekday maxD num =
      daily_text_notification_criteria_met flag isPdt last utcNow nowTod preS
        weekday maxD num := by
  constructor
  · cases flag
    · simp [daily_text_notification_criteria_met]
    · by_cases hw : weekday ≤ maxD
      · simp only [daily_text_notification_criteria_met, if_pos hw, if_true,
          Bool.and_eq_true, decide_eq_true_eq, ge_iff_le]
        constructor
        · rintro ⟨⟨h1, h2⟩, h3⟩; exact ⟨by trivial, h1, h2, fun _ => h3⟩
        · rintro ⟨-, h1, h2, h3⟩; exact ⟨⟨h1, h2⟩, h3 hw⟩
      · simp only [daily_text_notification_criteria_met, if_neg hw, if_true,
          Bool.and_eq_true, decide_eq_true_eq, ge_iff_le]
        constructor
        · rintro ⟨h1, h2⟩; exact ⟨by trivial, h1, h2, fun h => absurd h hw⟩
        · rintro ⟨-, h1, h2, -⟩; exact ⟨h1, h2⟩
  · cases flag <;>
      simp only [daily_text_notification_criteria_met,
        daily_email_notification_criteria_met]

/-- Claim C4: a missing timestamp file initializes the channel's
last-notification time to 24 hours before now, which already satisfies any
cooldown of at most 24 hours (so the default 8-hour `NOTIFICATION_INTERVAL`
immediately permits a notification); after a completed send at time `t` the
channel stays silent until the interval has elapsed since `t`; the stored
timestamp changes only on a completed send (never on a suppressed cycle,
never on a failed send), and a send marks it with the send time. -/
theorem cooldown_store_behavior :
    (∀ now : ℤ, read_timestamp_channel none now = now - 24 * 3600) ∧
    (∀ interval now : ℤ, interval ≤ 24 * 3600 →
      cooldownPermits interval now (read_timestamp_channel none now) = true) ∧
    (∀ (interval now t : ℤ) (criteriaMet : Bool), now - t < interval →
      notifyChannelStep interval now t criteriaMet true = (t, false)) ∧
    (∀ (interval now last : ℤ) (criteriaMet : Bool),
      notifyChannelStep interval now last criteriaMet false = (last, false)) ∧
    (∀ (interval now last : ℤ) (criteriaMet sendCompleted : Bool),
      (notifyChannelStep interval now last criteriaMet sendCompleted).2 = false →
      (notifyChannelStep interval now last criteriaMet sendCompleted).1 = last) ∧
    (∀ (interval now last : ℤ) (criteriaMet sendCompleted : Bool),
      (notifyChannelStep interval now last criteriaMet sendCompleted).2 = true →
      sendCompleted = true ∧
        (notifyChannelStep interval now last criteriaMet sendCompleted).1 = now) := by
  refine ⟨fun now => rfl, ?_, ?_, ?_, ?_, ?_⟩
  · intro interval now h
    simp only [read_timestamp_channel, cooldownPermits, decide_eq_true_eq]
    omega
  · intro interval now t criteriaMet h
    have hc : cooldownPermits interval now t = false := by
      simp only [cooldownPermits, decide_eq_false_iff_not]
      omega
    simp [notifyChannelStep, hc]
  · intro interval now last criteriaMet
    simp only [notifyChannelStep]
    split <;> simp
  · intro interval now last criteriaMet sendCompleted
    simp only [notifyChannelStep]
    split
    · cases sendCompleted <;> simp
    · simp
  · intro interval now last criteriaMet sendCompleted
    simp only [notifyChannelStep]
    split
    · cases sendCompleted <;> simp
    · simp

theorem cooldown_store_behavior_witness :
    ((28800 : ℤ) ≤ 24 * 3600 ∧
      cooldownPermits 28800 0 (read_timestamp_channel none 0) = true) ∧
    ((0 : ℤ) - 100 < 28800 ∧
      notifyChannelStep 28800 0 100 true true = (100, false)) :=
  ⟨⟨by norm_num, cooldown_store_behavior.2.1 28800 0 (by norm_num)⟩,
   ⟨by norm_num, cooldown_store_behavior.2.2.1 28800 0 100 true (by norm_num)⟩⟩

/-- `takeLast` never yields more than `cap` elements. -/
lemma takeLast_length_le (cap : ℕ) (l : List ℚ) : (takeLast cap l).length ≤ cap := by
  simp only [takeLast, List.length_drop]
  omega

/-- Re-trimming an already trimmed buffer before an append changes nothing:
pushing onto the trimmed buffer is pushing onto the full history. -/
lemma appendReading_takeLast (cap : ℕ) (l : List ℚ) (v : ℚ) :
    appendReading cap (takeLast cap l) v = takeLast cap (l ++ [v]) := by
  rcases le_or_lt cap l.length with hle | hlt
  · rcases Nat.eq_zero_or_pos cap with hc0 | hc1
    · subst hc0
      simp [appendReading, takeLast]
    · simp only [appendReading, takeLast, List.length_append, List.length_drop,
        List.length_singleton]
      rw [List.drop_append_of_le_length (by simp only [List.length_drop]; omega),
        List.drop_append_of_le_length (by omega), List.drop_drop]
      congr 2
      omega
  · have htl : takeLast cap l = l := by
      simp only [takeLast, Nat.sub_eq_zero_of_le (le_of_lt hlt), List.drop_zero]
    simp only [appendReading, htl]

/-- Folding the buffer update over any arrival sequence from an empty buffer
retains exactly the most recent `cap` values in arrival order. -/
lemma foldl_appendReading (cap : ℕ) (vs : List ℚ) :
    vs.foldl (appendReading cap) [] = takeLast cap vs := by
  have general : ∀ (vs l : List ℚ),
      vs.foldl (appendReading cap) (takeLast cap l) = takeLast cap (l ++ vs) := by
    intro vs
    induction vs with
    | nil => intro l; simp
    | cons v rest ih =>
      intro l
      rw [List.foldl_cons, appendReading_takeLast, ih (l ++ [v])]
      simp
  have h0 : (takeLast cap ([] : List ℚ)) = [] := by
    simp [takeLast]
  have := general vs []
  rw [h0] at this
  simpa using this

/-- Claim C5: after each poll-cycle update the window buffer holds at most
`max_data_points` entries, where `max_data_points =
ceil(storage duration in minutes / poll interval in minutes) + 1`, and its
contents are exactly the most recently appended values in arrival order
(FIFO); a buffer of capacity 5 fed 7 values retains exactly the last 5 in
oldest-first order. -/
theorem window_buffer_fifo :
    (∀ readingsStorageDuration pollingIntervalSec : ℕ,
      0 < pollingIntervalSec → ∀ vs : List ℚ,
      vs.foldl (appendReading (max_data_points readingsStorageDuration pollingIntervalSec)) [] =
        takeLast (max_data_points readingsStorageDuration pollingIntervalSec) vs ∧
      (vs.foldl (appendReading (max_data_points readingsStorageDuration pollingIntervalSec)) []).length ≤
        max_data_points readingsStorageDuration pollingIntervalSec ∧
      1 ≤ max_data_points readingsStorageDuration pollingIntervalSec) ∧
    List.foldl (appendReading 5) [] [1, 2, 3, 4, 5, 6, 7] = [3, 4, 5, 6, 7] := by
  constructor
  · intro d p _ vs
    refine ⟨foldl_appendReading _ vs, ?_, ?_⟩
    · rw [foldl_appendReading]
      exact takeLast_length_le _ vs
    · simp only [max_data_points]
      omega
  · rw [foldl_appendReading]
    rfl

theorem window_buffer_fifo_witness :
    0 < 300 ∧
      List.foldl (appendReading (max_data_points 30 300)) [] [1, 2, 3] =
        takeLast (max_data_points 30 300) [1, 2, 3] :=
  ⟨by norm_num, (window_buffer_fifo.1 30 300 (by norm_num) [1, 2, 3]).1⟩

/-- Binding an `Except.ok` just applies the continuation. -/
lemma ok_bind {α β ε : Type} (x : α) (f : α → Except ε β) :
    (Except.ok x >>= f) = f x := rfl

/-- Binding an `Except.error` propagates the error. -/
lemma error_bind {α β ε : Type} (e : ε) (f : α → Except ε β) :
    (Except.error e >>= f : Except ε β) = Except.error e := rfl

/-- `pure` for `Except` is `Except.ok`. -/
lemma pure_eq_ok {α ε : Type} (x : α) : (pure x : Except ε α) = Except.ok x := rfl

/-- The `for arg in args` loop of `EPA.calculate` over numeric arguments:
non-negative readings are added to the running total and counted; negative
readings are skipped entirely (neither total nor count changes). -/
lemma foldlM_argStep (qs : List ℚ) : ∀ (t : ℚ) (c : ℕ),
    (qs.map PyVal.num).foldlM EPA.argStep (t, c) =
      Except.ok (t + (qs.filter fun q => decide (0 ≤ q)).sum,
        c + (qs.filter fun q => decide (0 ≤ q)).length) := by
  induction qs with
  | nil =>
    intro t c
    simp only [List.map_nil, List.foldlM_nil, pure_eq_ok, List.filter_nil,
      List.sum_nil, List.length_nil, add_zero]
  | cons q rest ih =>
    intro t c
    by_cases hq : q < 0
    · have hf : decide (0 ≤ q) = false := by simp only [decide_eq_false_iff_not]; intro h; linarith
      simp only [List.map_cons, List.foldlM_cons, EPA.argStep, if_pos hq,
        List.filter_cons, hf, Bool.false_eq_true, if_false, ok_bind]
      exact ih t c
    · have hf : decide (0 ≤ q) = true := by simp only [decide_eq_true_eq]; linarith
      simp only [List.map_cons, List.foldlM_cons, EPA.argStep, if_neg hq,
        List.filter_cons, hf, if_true, List.sum_cons, List.length_cons, ok_bind]
      rw [ih (t + q) (c + 1)]
      simp only [Except.ok.injEq, Prod.mk.injEq]
      exact ⟨by ring, by omega⟩

/-- A string among the extra arguments makes the loop raise (`arg < 0` on a
`str` is a `TypeError`), whatever follows it. -/
lemma foldlM_argStep_str (pre : List ℚ) (rest : List PyVal) : ∀ (t : ℚ) (c : ℕ),
    (pre.map PyVal.num ++ PyVal.str :: rest).foldlM EPA.argStep (t, c) =
      Except.error () := by
  induction pre with
  | nil =>
    intro t c
    simp only [List.map_nil, List.nil_append, List.foldlM_cons, EPA.argStep,
      error_bind]
  | cons q qs ih =>
    intro t c
    by_cases hq : q < 0
    · simp only [List.map_cons, List.cons_append, List.foldlM_cons, EPA.argStep,
        if_pos hq, ok_bind]
      exact ih t c
    · simp only [List.map_cons, List.cons_append, List.foldlM_cons, EPA.argStep,
        if_neg hq, ok_bind]
      exact ih (t + q) (c + 1)

/-- Claim C7 counterexample: `EPA(50, 10, -5)` ignores the negative extra
reading entirely — the result equals `EPA(50, 10)` with average 10, namely
6.65 — whereas the claim's semantics (clamp to 0, then average over both
readings) would give `body(50, (10+0)/2) = 4.05`. -/
theorem epa_negative_reading_counterexample :
    EPA.calculate (.num 50) (.num 10) [.num (-5)] = .ok (133/20) ∧
    EPA.calculate (.num 50) (.num 10) [.num (-5)] =
      EPA.calculate (.num 50) (.num 10) [] ∧
    EPA.body 50 ((10 + 0) / 2) = 81/20 ∧
    (133/20 : ℚ) ≠ 81/20 := by
  refine ⟨?_, ?_, ?_, by norm_num⟩ <;>
    norm_num [EPA.calculate, EPA.argStep, EPA.body, round3, pyRoundHalfEven,
      List.foldlM, PyVal.isStr, PyVal.val, ok_bind, pure_eq_ok]

/-- Claim C7 amended: non-numeric humidity or first-concentration inputs are
treated as zero and negative ones clamped to zero, but of the additional
readings only the non-negative numeric ones participate in the average
(negative ones are skipped, not clamped-and-averaged), and a non-numeric
additional reading raises instead of being treated as zero. -/
theorem epa_average_amended (rh pm : ℚ) (qs : List ℚ) :
    (EPA.calculate (.num rh) (.num pm) (qs.map .num) =
      .ok (EPA.body (if rh < 0 then 0 else rh)
        (((if pm < 0 then 0 else pm) + (qs.filter fun q => decide (0 ≤ q)).sum) /
          ((1 + (qs.filter fun q => decide (0 ≤ q)).length : ℕ) : ℚ)))) ∧
    (∀ rest : List PyVal,
      EPA.calculate (.num rh) (.num pm) (qs.map .num ++ .str :: rest) =
        .error ()) ∧
    EPA.calculate .str (.num pm) [] = .ok (EPA.body 0 (0 / 1)) ∧
    EPA.calculate (.num rh) .str [] = .ok (EPA.body 0 (0 / 1)) := by
  refine ⟨?_, ?_,
    by simp [EPA.calculate, PyVal.isStr, pure_eq_ok, ok_bind, List.foldlM],
    by simp [EPA.calculate, PyVal.isStr, pure_eq_ok, ok_bind, List.foldlM]⟩
  · simp only [EPA.calculate, PyVal.isStr, Bool.or_false, Bool.false_or,
      PyVal.val, foldlM_argStep, ok_bind, pure_eq_ok, Nat.cast_add, Nat.cast_one,
      Bool.false_eq_true, if_false]
  · intro rest
    simp only [EPA.calculate, PyVal.isStr, Bool.or_false, Bool.false_or,
      PyVal.val, foldlM_argStep_str, error_bind]

/-- Claim C8: with fewer than 2 points the rate of change is 0 (not an
error); otherwise it is the least-squares slope of the values against
`x = index × poll interval in minutes`, converted to AQI per hour and rounded
to 1 decimal: a constant buffer `[c, c]` yields 0, and the arithmetic
sequence 10,12,14,16,18 sampled every 2 minutes yields exactly the
closed-form slope 60 AQI/hour. -/
theorem rate_of_change_behavior :
    (∀ (m : ℕ) (pts : List ℚ), pts.length < 2 → aqi_rate_of_change m pts = 0) ∧
    (∀ (m : ℕ) (c : ℚ), aqi_rate_of_change m [c, c] = 0) ∧
    aqi_rate_of_change 2 [10, 12, 14, 16, 18] = 60 := by
  refine ⟨?_, ?_, ?_⟩
  · intro m pts h
    simp only [aqi_rate_of_change, if_pos h]
    norm_num [round1, pyRoundHalfEven]
  · intro m c
    have hlen : ¬ ([c, c].length < 2) := by simp
    simp only [aqi_rate_of_change, if_neg hlen]
    have hs : lsSlope m [c, c] = 0 := by
      simp only [lsSlope, List.length_cons, List.length_nil]
      norm_num [List.range_succ]
      ring_nf
      exact Or.inl trivial
    rw [hs]
    norm_num [round1, pyRoundHalfEven]
  · norm_num [aqi_rate_of_change, lsSlope, List.range_succ, round1, pyRoundHalfEven]

theorem rate_of_change_behavior_witness :
    ([(7 : ℚ)].length < 2) ∧ aqi_rate_of_change 5 [7] = 0 :=
  ⟨by norm_num, rate_of_change_behavior.1 5 [7] (by norm_num)⟩

/-- Claim C9 counterexample: on a Saturday (weekday 5 with maximum weekday 4)
`polling_criteria_met` returns the bare `False`, which `main` compares
against neither tuple, so a nonempty buffer survives the cycle untouched even
though the weekday gate has closed the polling window. -/
theorem window_exit_clear_counterexample :
    polling_criteria_met 5 4 600 300 true 46800 48600 47000 =
      PollResult.scalar false ∧
    mainBufferStep (polling_criteria_met 5 4 600 300 true 46800 48600 47000)
      [42] 7 none = [42] ∧
    ([42] : List ℚ) ≠ [] := by
  have h : polling_criteria_met 5 4 600 300 true 46800 48600 47000 =
      PollResult.scalar false := by
    simp [polling_criteria_met]
  refine ⟨h, ?_, by simp⟩
  rw [h]
  simp [mainBufferStep]

/-- Claim C9 amended: the buffer is cleared exactly when
`polling_criteria_met` returns the tuple `(True, False)` (polling interval
elapsed and current time outside the time-of-day window); when the weekday
gate closes the window the function instead returns the bare `False`, which
matches neither tuple, and the buffer is left unchanged for that cycle. -/
theorem window_exit_clear_amended :
    (∀ (buf : List ℚ) (cap : ℕ) (fetched : Option ℚ),
      mainBufferStep (.pair true false) buf cap fetched = []) ∧
    (∀ (b : Bool) (buf : List ℚ) (cap : ℕ) (fetched : Option ℚ),
      mainBufferStep (.scalar b) buf cap fetched = buf) ∧
    (∀ (weekday maxDayOfWeek : ℕ) (et iv : ℚ) (isPdt : Bool) (s e nowTod : ℕ),
      weekday > maxDayOfWeek →
      polling_criteria_met weekday maxDayOfWeek et iv isPdt s e nowTod =
        PollResult.scalar false) := by
  refine ⟨fun buf cap fetched => by simp [mainBufferStep],
    fun b buf cap fetched => by simp [mainBufferStep], ?_⟩
  intro weekday maxDayOfWeek et iv isPdt s e nowTod hw
  simp only [polling_criteria_met, if_pos hw]

theorem window_exit_clear_amended_witness :
    (5 > 4) ∧
      polling_criteria_met 5 4 600 300 true 0 86399 43200 =
        PollResult.scalar false :=
  ⟨by norm_num,
    window_exit_clear_amended.2.2 5 4 600 300 true 0 86399 43200 (by norm_num)⟩

/-- Claim C10: `get_regional_pa_data` returns a rounded numeric regional mean
only when the HTTP request raised no exception and the response was ok; a
request exception yields the empty DataFrame instead of a number, and an
ok=False response reaches `return round(mean_ipm25, 1)` with `mean_ipm25`
unassigned, raising `NameError` — the call returns no value at all. -/
theorem regional_mean_partiality :
    (∀ localAqi : ℚ, get_regional_pa_data .exception localAqi = .dataFrame) ∧
    (∀ localAqi : ℚ, get_regional_pa_data .notOk localAqi = .nameError) ∧
    (∀ (outcome : FetchOutcome) (localAqi q : ℚ),
      get_regional_pa_data outcome localAqi = .value q →
      ∃ rows, outcome = .ok rows) := by
  refine ⟨fun localAqi => rfl, fun localAqi => rfl, ?_⟩
  intro outcome localAqi q h
  cases outcome with
  | exception => exact absurd h (by simp [get_regional_pa_data])
  | notOk => exact absurd h (by simp [get_regional_pa_data])
  | ok rows => exact ⟨rows, rfl⟩

theorem regional_mean_partiality_witness :
    get_regional_pa_data (.ok []) 5 = .value (round1 5) ∧
    ∃ rows, (FetchOutcome.ok [] : FetchOutcome) = .ok rows :=
  ⟨by simp [get_regional_pa_data, clean_data],
    regional_mean_partiality.2.2 (.ok []) 5 (round1 5)
      (by simp [get_regional_pa_data, clean_data])⟩
